import Mathlib

/-!
Verification of the gbatchkit job-document builder, compute-config parser,
multitask preparation, and task-argument resolver.  The definitions below are
a shallow embedding of the Python sources (`gbatchkit/types.py`,
`gbatchkit/jobs.py`, `gbatchkit/inputs.py`): dictionaries become association
lists (insertion order preserved, updates in place), Python exceptions become
an explicit error type, Python string `split` becomes an executable character
splitter, and floats used for disk sizes become rationals.
-/

/-- Python exception kinds raised by the embedded code. -/
inductive PyErr where
  | valueError : String → PyErr
  | typeError : PyErr
  | keyError : PyErr
  | indexError : PyErr
  | ioError : PyErr
  | argError : String → PyErr
deriving DecidableEq

deriving instance DecidableEq for Except

/-- True when a computation failed with a `ValueError` (a validation error). -/
def isValueError {α : Type} : Except PyErr α → Bool
  | .error (.valueError _) => true
  | _ => false

/-- Python dict update `d[k] = v`: replace the value in place if the key is
present (keeping its position, as Python dicts do), otherwise append. -/
def dictSet {α : Type} (d : List (String × α)) (k : String) (v : α) : List (String × α) :=
  match d with
  | [] => [(k, v)]
  | (k', v') :: rest => if k' = k then (k, v) :: rest else (k', v') :: dictSet rest k v

/-- Python dict lookup `d.get(k)`. -/
def dictGet {α : Type} (d : List (String × α)) (k : String) : Option α :=
  match d with
  | [] => none
  | (k', v') :: rest => if k' = k then some v' else dictGet rest k

/-- Python `str.split(sep)` on a character list: split on every occurrence of
the separator, keeping empty pieces (`"".split(s) == [""]`). -/
def splitSep (sep : Char) : List Char → List (List Char)
  | [] => [[]]
  | c :: cs =>
    if c = sep then [] :: splitSep sep cs
    else
      match splitSep sep cs with
      | [] => [[c]]
      | h :: t => (c :: h) :: t

/-- Numeric value of a digit string (most significant digit first). -/
def digitsVal (l : List Char) : Nat :=
  l.foldl (fun a c => a * 10 + (c.toNat - 48)) 0

/-- Decimal digit strings accepted by Python `int()`, with their value. -/
def digitsNat (l : List Char) : Option Nat :=
  if l ≠ [] ∧ l.all (fun c => c.isDigit) then some (digitsVal l) else none

/-- Python `int(s)` on a string: an optional sign followed by digits
(`None` models a raised `ValueError`). -/
def pyInt (l : List Char) : Option Int :=
  match l with
  | '-' :: rest => (digitsNat rest).map (fun n => -(n : Int))
  | '+' :: rest => (digitsNat rest).map (fun n => (n : Int))
  | _ => (digitsNat l).map (fun n => (n : Int))

/-- `gbatchkit.types.ComputeConfig` (a pydantic model of four fields). -/
structure ComputeConfig where
  machine_type : String
  provisioning_model : String
  accelerator_count : Int
  accelerator_type : String
deriving DecidableEq

/-- Final construction step of `parse_compute_config`: Python's
`provisioning_model or "SPOT"` maps the empty string to `"SPOT"`, and
`accelerator_type or ""` / `int(accelerator_count or 0)` are identities. -/
def mkComputeConfig (mt pm accT : String) (n : Int) : Except PyErr ComputeConfig :=
  .ok { machine_type := mt
      , provisioning_model := if pm = "" then "SPOT" else pm
      , accelerator_count := n
      , accelerator_type := accT }

/-- Accelerator-segment handling of `parse_compute_config`: split the segment
on `':'`; one piece means a bare accelerator type (count 1 when the type is
nonempty, else 0); two pieces parse the count with `int(part or 0)` and reject
a positive count with an empty type; more pieces are an error. -/
def pccAccel (mt pm : String) (a : List Char) : Except PyErr ComputeConfig :=
  match splitSep ':' a with
  | [t1] =>
    if String.mk t1 = "" then mkComputeConfig mt pm (String.mk t1) 0
    else mkComputeConfig mt pm (String.mk t1) 1
  | [t1, c1] =>
    match (if c1 = [] then some 0 else pyInt c1) with
    | none => .error (.valueError ("invalid literal for int"))
    | some n =>
      if 0 < n ∧ String.mk t1 = "" then
        .error (.valueError ("Accelerator count specified without accelerator type"))
      else mkComputeConfig mt pm (String.mk t1) n
  | _ => .error (.valueError ("Invalid accelerator type/count"))

/-- Machine-segment handling of `parse_compute_config`: reject an empty
machine segment, then split it on `':'` into machine type and optional
provisioning model (default `"SPOT"`); more than two pieces are an error. -/
def pccParts (m a : List Char) : Except PyErr ComputeConfig :=
  if m = [] then .error (.valueError ("Machine type is required"))
  else
    match splitSep ':' m with
    | [mt] => pccAccel (String.mk mt) ("SPOT") a
    | [mt, pm] => pccAccel (String.mk mt) (String.mk pm) a
    | _ => .error (.valueError ("Invalid machine type/provisioning model"))

/-- Top-level split of `parse_compute_config` on `'+'`: one piece gets an
empty accelerator segment appended, two pieces are kept, more are an error. -/
def pccTop (cp : List (List Char)) : Except PyErr ComputeConfig :=
  match cp with
  | [] => .error .indexError
  | [m] => pccParts m []
  | [m, a] => pccParts m a
  | _ => .error (.valueError ("Invalid compute config format"))

/-- `gbatchkit.types.parse_compute_config`. -/
def parseComputeConfig (s : String) : Except PyErr ComputeConfig :=
  pccTop (splitSep '+' s.data)

/-- `gbatchkit.types.NetworkInterfaceConfig`. -/
structure NetworkInterfaceConfig where
  network : String
  subnetwork : String
  no_external_ip_address : Bool
deriving DecidableEq

/-- `gbatchkit.types.ServiceAccountConfig`. -/
structure ServiceAccountConfig where
  email : String
  scopes : List String
deriving DecidableEq

/-- `gbatchkit.types.ContainerRunnable`. -/
structure ContainerRunnable where
  image_uri : String
  entrypoint : String
  commands : List String
deriving DecidableEq

/-- `gbatchkit.types.Runnable`: the instantiable base class plus its single
subclass `ContainerRunnable`. -/
inductive Runnable where
  | base : Runnable
  | container : ContainerRunnable → Runnable
deriving DecidableEq

/-- A JSON scalar appearing in task-argument dictionaries. -/
inductive JVal where
  | s : String → JVal
  | i : Int → JVal
  | b : Bool → JVal
deriving DecidableEq

/-- A flat JSON object (Python dict), e.g. one task-argument payload. -/
def TaskDict : Type := List (String × JVal)

deriving instance DecidableEq for TaskDict

/-- `json.dumps` of a JSON scalar. -/
def dumpJVal : JVal → String
  | .s v => "\"" ++ v ++ "\""
  | .i n => toString n
  | .b true => "true"
  | .b false => "false"

/-- `json.dumps` of one key/value pair (default separator `": "`). -/
def dumpPair (p : String × JVal) : String :=
  "\"" ++ p.1 ++ "\": " ++ dumpJVal p.2

/-- `json.dumps` of a flat JSON object (default separator `", "`). -/
def dumpTask (t : TaskDict) : String :=
  "\x7b" ++ String.intercalate (", ") (t.map dumpPair) ++ "\x7d"

/-- `json.dumps` of a task list, serialized in list order, as written by
`gbatchkit.jobs.write_tasks`. -/
def dumpTasks (ts : List TaskDict) : String :=
  "[" ++ String.intercalate (", ") (ts.map dumpTask) ++ "]"

/-- One entry of `taskGroups[0].taskSpec.runnables`: a serialized container
plus the runnable-level `environment.variables` mapping (empty when the
`environment` key is absent). -/
structure RunnableEntry where
  container : ContainerRunnable
  environment : List (String × String)
deriving DecidableEq

/-- One disk descriptor in `allocationPolicy.instances[0].policy.disks`. -/
structure Disk where
  deviceName : String
  diskType : String
  sizeGb : Int
deriving DecidableEq

/-- One accelerator descriptor in
`allocationPolicy.instances[0].policy.accelerators`. -/
structure Accelerator where
  accType : String
  count : Int
deriving DecidableEq

/-- `allocationPolicy.instances[0].policy` (`accelerators` is `none` when the
key is absent from the document). -/
structure InstancePolicy where
  machineType : String
  provisioningModel : String
  accelerators : Option (List Accelerator)
  disks : List Disk
deriving DecidableEq

/-- One entry of `allocationPolicy.instances` (`installGpuDrivers` is `none`
when the key is absent). -/
structure InstanceAlloc where
  policy : InstancePolicy
  installGpuDrivers : Option Bool
deriving DecidableEq

/-- The `allocationPolicy` object of a job document. -/
structure AllocationPolicy where
  instances : List InstanceAlloc
  allowedLocations : List String
  networkInterfaces : List NetworkInterfaceConfig
  serviceAccount : Option ServiceAccountConfig
deriving DecidableEq

/-- One `taskGroups[0].taskSpec.volumes` entry. -/
structure Volume where
  mountPath : String
  deviceName : String
deriving DecidableEq

/-- The fixed lifecycle policy written by `create_job_base`. -/
structure LifecyclePolicy where
  action : String
  exitCodes : List Int
deriving DecidableEq

/-- `taskGroups[0].taskSpec`: runnables, retry count, lifecycle policies,
job-group environment variables, and storage volumes. -/
structure TaskSpec where
  runnables : List RunnableEntry
  maxRetryCount : Nat
  lifecyclePolicies : List LifecyclePolicy
  environment : List (String × String)
  volumes : List Volume
deriving DecidableEq

/-- One entry of `taskGroups`. -/
structure TaskGroup where
  taskSpec : TaskSpec
  taskCount : Nat
  taskCountPerNode : Nat
  parallelism : Nat
deriving DecidableEq

/-- One dependency group (`dependencies[i]`), mapping job ids to statuses. -/
structure DepGroup where
  items : List (String × String)
deriving DecidableEq

/-- The job document assembled by `gbatchkit.jobs` (`none` fields model keys
absent from the underlying Python dict). -/
structure JobDoc where
  taskGroups : List TaskGroup
  allocationPolicy : Option AllocationPolicy
  logsPolicy : Option String
  dependencies : Option (List DepGroup)
deriving DecidableEq

/-- `gbatchkit.jobs.create_job_base`: one task group, empty runnables, the
fixed retry/lifecycle policy, and `parallelism or 1`. -/
def createJobBase (taskCount taskCountPerNode parallelism preemptionRetryCount : Nat) : JobDoc :=
  { taskGroups :=
      [ { taskSpec :=
            { runnables := []
            , maxRetryCount := preemptionRetryCount
            , lifecyclePolicies := [{ action := "RETRY_TASK", exitCodes := [50001] }]
            , environment := []
            , volumes := [] }
        , taskCount := taskCount
        , taskCountPerNode := taskCountPerNode
        , parallelism := if parallelism = 0 then 1 else parallelism } ]
  , allocationPolicy := none
  , logsPolicy := none
  , dependencies := none }

/-- Serialization of a runnable into its job-document entry; `none` for the
unsupported base variant (which `add_runnable` rejects with a `TypeError`). -/
def serializeRunnable : Runnable → Option RunnableEntry
  | .container c => some { container := c, environment := [] }
  | .base => none

/-- `gbatchkit.jobs.add_runnable`: append the serialized container to
`taskGroups[0].taskSpec.runnables`, or raise `TypeError` for an unsupported
runnable variant. -/
def addRunnable (job : JobDoc) (r : Runnable) : Except PyErr JobDoc :=
  match job.taskGroups with
  | [] => .error .indexError
  | tg :: rest =>
    match serializeRunnable r with
    | some entry =>
      .ok { job with taskGroups :=
              { tg with taskSpec :=
                  { tg.taskSpec with runnables := tg.taskSpec.runnables ++ [entry] } } :: rest }
    | none => .error .typeError

/-- The `for runnable in runnables: add_runnable(job, runnable)` loop of
`create_standard_job`. -/
def addRunnables (job : JobDoc) : List Runnable → Except PyErr JobDoc
  | [] => .ok job
  | r :: rs =>
    match addRunnable job r with
    | .error e => .error e
    | .ok job' => addRunnables job' rs

/-- The allocation policy written by `apply_allocation_policy` on success. -/
def allocPolicyFor (region : String) (cc : ComputeConfig) : AllocationPolicy :=
  { instances :=
      [ { policy :=
            { machineType := cc.machine_type
            , provisioningModel := cc.provisioning_model
            , accelerators :=
                if cc.accelerator_type ≠ "" then
                  some [{ accType := cc.accelerator_type, count := cc.accelerator_count }]
                else none
            , disks := [] }
        , installGpuDrivers := if cc.accelerator_type ≠ "" then some true else none } ]
  , allowedLocations := ["regions/" ++ region]
  , networkInterfaces := []
  , serviceAccount := none }

/-- `gbatchkit.jobs.apply_allocation_policy`: reject a GPU type set without a
nonzero count (or vice versa), reject a provisioning model other than `SPOT`
or `STANDARD`, then overwrite `allocationPolicy`. -/
def applyAllocationPolicy (job : JobDoc) (region : String) (cc : ComputeConfig) :
    Except PyErr JobDoc :=
  if (cc.accelerator_type ≠ "" ∧ cc.accelerator_count = 0) ∨
     (cc.accelerator_count ≠ 0 ∧ cc.accelerator_type = "") then
    .error (.valueError ("GPU type and GPU count must be set together"))
  else if cc.provisioning_model ≠ "SPOT" ∧ cc.provisioning_model ≠ "STANDARD" then
    .error (.valueError ("Provisioning model must be either SPOT or STANDARD"))
  else
    .ok { job with allocationPolicy := some (allocPolicyFor region cc) }

/-- `gbatchkit.jobs.apply_cloud_log_policy`. -/
def applyCloudLogPolicy (job : JobDoc) : JobDoc :=
  { job with logsPolicy := some "CLOUD_LOGGING" }

/-- `gbatchkit.jobs.add_attached_disk`: append a disk whose stored size is
`math.ceil(size_gb)` floored at 1; raises a lookup error when the allocation
policy or its instance is missing. -/
def addAttachedDisk (job : JobDoc) (deviceName : String) (sizeGb : ℚ) (diskType : String) :
    Except PyErr JobDoc :=
  match job.allocationPolicy with
  | none => .error .keyError
  | some ap =>
    match ap.instances with
    | [] => .error .indexError
    | inst :: rest =>
      let disk : Disk :=
        { deviceName := deviceName, diskType := diskType, sizeGb := max (Rat.ceil sizeGb) 1 }
      let inst' : InstanceAlloc :=
        { inst with policy := { inst.policy with disks := inst.policy.disks ++ [disk] } }
      .ok { job with allocationPolicy := some ({ ap with instances := inst' :: rest }) }

/-- `gbatchkit.jobs.add_job_storage_volume`: append a volume to
`taskGroups[0].taskSpec.volumes`. -/
def addJobStorageVolume (job : JobDoc) (tmpDir : String) (volumeName : String) :
    Except PyErr JobDoc :=
  match job.taskGroups with
  | [] => .error .indexError
  | tg :: rest =>
    .ok { job with taskGroups :=
            { tg with taskSpec :=
                { tg.taskSpec with volumes :=
                    tg.taskSpec.volumes ++ [{ mountPath := tmpDir, deviceName := volumeName }] } }
              :: rest }

/-- `gbatchkit.jobs.set_job_environment_variable`: set a key in
`taskGroups[0].taskSpec.environment.variables` (last write wins). -/
def setJobEnvironmentVariable (job : JobDoc) (key value : String) : Except PyErr JobDoc :=
  match job.taskGroups with
  | [] => .error .indexError
  | tg :: rest =>
    .ok { job with taskGroups :=
            { tg with taskSpec :=
                { tg.taskSpec with environment := dictSet tg.taskSpec.environment key value } }
              :: rest }

/-- `gbatchkit.jobs.add_tmp_dir`: attach the fixed `job-workspace` disk, mount
it, and point `TMPDIR` at it.  A missing size raises a `TypeError` (Python's
`math.ceil(None)`). -/
def addTmpDir (job : JobDoc) (tmpDir : String) (tmpDirSizeGb : Option ℚ) : Except PyErr JobDoc :=
  match tmpDirSizeGb with
  | none => .error .typeError
  | some q =>
    match addAttachedDisk job ("job-workspace") q ("pd-balanced") with
    | .error e => .error e
    | .ok j1 =>
      match addJobStorageVolume j1 tmpDir ("job-workspace") with
      | .error e => .error e
      | .ok j2 => setJobEnvironmentVariable j2 ("TMPDIR") tmpDir

/-- `gbatchkit.jobs.add_networking_interface`: append to
`allocationPolicy.network.networkInterfaces`. -/
def addNetworkingInterface (job : JobDoc) (ni : NetworkInterfaceConfig) : Except PyErr JobDoc :=
  match job.allocationPolicy with
  | none => .error .keyError
  | some ap =>
    .ok { job with allocationPolicy := some ({ ap with networkInterfaces := ap.networkInterfaces ++ [ni] }) }

/-- `gbatchkit.jobs.add_service_account`: overwrite
`allocationPolicy.serviceAccount`. -/
def addServiceAccount (job : JobDoc) (sa : ServiceAccountConfig) : Except PyErr JobDoc :=
  match job.allocationPolicy with
  | none => .error .keyError
  | some ap =>
    .ok { job with allocationPolicy := some ({ ap with serviceAccount := some sa }) }

/-- `gbatchkit.jobs.add_job_dependencies`: drop falsy (empty) job ids, return
the document unchanged if none remain, otherwise set each surviving id to
`"SUCCEEDED"` in the first (possibly newly created) dependency group. -/
def addJobDependencies (job : JobDoc) (jobIds : List String) : Except PyErr JobDoc :=
  let ids := jobIds.filter (fun s => s ≠ "")
  if ids = [] then .ok job
  else
    let depList : List DepGroup := match job.dependencies with
      | none => [{ items := [] }]
      | some ds => ds
    match depList with
    | [] => .error .indexError
    | g :: rest =>
      let g' : DepGroup := { items := ids.foldl (fun acc i => dictSet acc i ("SUCCEEDED")) g.items }
      .ok { job with dependencies := some (g' :: rest) }

/-- Python truthiness of an optional list (`None` and `[]` are falsy). -/
def optTruthy {α : Type} : Option (List α) → Bool
  | none => false
  | some l => !l.isEmpty

/-- Python truthiness of an optional string (`None` and `""` are falsy). -/
def optStrTruthy : Option String → Bool
  | none => false
  | some s => !(s = "")

/-- `gbatchkit.jobs.create_standard_job`: base document, runnables in input
order, allocation and logging policy, then the optional steps in the source's
fixed order. -/
def createStandardJob (region : String) (cc : ComputeConfig) (taskCount : Nat)
    (runnables : List Runnable) (parallelism taskCountPerNode : Nat)
    (tmpDir : Option String) (tmpDirSizeGb : Option ℚ)
    (networkInterface : Option NetworkInterfaceConfig)
    (serviceAccount : Option ServiceAccountConfig)
    (dependsOnJobIds : Option (List String)) : Except PyErr JobDoc :=
  match addRunnables (createJobBase taskCount taskCountPerNode parallelism 3) runnables with
  | .error e => .error e
  | .ok j1 =>
    match applyAllocationPolicy j1 region cc with
    | .error e => .error e
    | .ok j2 =>
      match (if optStrTruthy tmpDir then
               addTmpDir (applyCloudLogPolicy j2) (tmpDir.getD "") tmpDirSizeGb
             else .ok (applyCloudLogPolicy j2)) with
      | .error e => .error e
      | .ok j4 =>
        match (match networkInterface with
               | some ni => addNetworkingInterface j4 ni
               | none => .ok j4) with
        | .error e => .error e
        | .ok j5 =>
          match (match serviceAccount with
                 | some sa => addServiceAccount j5 sa
                 | none => .ok j5) with
          | .error e => .error e
          | .ok j6 =>
            if optTruthy dependsOnJobIds then addJobDependencies j6 (dependsOnJobIds.getD [])
            else .ok j6

/-- Decimal digits of a natural number (fuel-based so that it reduces in the
kernel); models Python string interpolation of an index. -/
def natToChars (fuel n : Nat) : List Char :=
  match fuel with
  | 0 => []
  | fuel' + 1 =>
    if n < 10 then [Char.ofNat (48 + n)]
    else natToChars fuel' (n / 10) ++ [Char.ofNat (48 + n % 10)]

/-- Decimal string of a natural number. -/
def natStr (n : Nat) : String :=
  String.mk (natToChars (n + 1) n)

/-- Outcome of `prepare_multitask_job`: the error raised (if any), the job
document in its state at return or raise time (Python mutates the caller's
document in place, so mutations before a raise are kept), and the files
written so far as `(path, content)` pairs, in write order. -/
structure PrepResult where
  err : Option PyErr
  job : JobDoc
  files : List (String × String)
deriving DecidableEq

/-- `set_runnable_environment_variable` applied to runnable `i` of the first
task group (the runnable dict is aliased inside the job document, so updating
it updates the document). -/
def updateRunnableEnv (job : JobDoc) (i : Nat) (key value : String) : JobDoc :=
  match job.taskGroups with
  | [] => job
  | tg :: rest =>
    match tg.taskSpec.runnables.get? i with
    | none => job
    | some e =>
      let e' := { e with environment := dictSet e.environment key value }
      { job with taskGroups :=
          ({ tg with taskSpec := { tg.taskSpec with runnables := tg.taskSpec.runnables.set i e' } })
            :: rest }

/-- `set_job_environment_variable` on a document known to have a task group
(total variant used inside `prepare_multitask_job`). -/
def setJobEnvVar0 (job : JobDoc) (key value : String) : JobDoc :=
  match job.taskGroups with
  | [] => job
  | tg :: rest =>
    { job with taskGroups :=
        ({ tg with taskSpec :=
            { tg.taskSpec with environment := dictSet tg.taskSpec.environment key value } })
          :: rest }

/-- The per-runnable loop of `prepare_multitask_job`: for each runnable task
list, check its length, set the runnable-level `GBATCHKIT_ARGS_PATH`, and
write `runnable_{i}_tasks.json`; a length mismatch raises mid-loop, keeping
the mutations and files of earlier iterations. -/
def prepRunLoop (wd : String) (numT i : Nat) (job : JobDoc)
    (files : List (String × String)) : List (List TaskDict) → PrepResult
  | [] => { err := none, job := job, files := files }
  | ts :: rest =>
    if ts.length ≠ numT then
      { err := some (.valueError ("Wrong number of tasks for runnable")), job := job
      , files := files }
    else
      let path := wd ++ "/runnable_" ++ natStr i ++ "_tasks.json"
      let job' := updateRunnableEnv job i ("GBATCHKIT_ARGS_PATH") path
      prepRunLoop wd numT (i + 1) job' (files ++ [(path, dumpTasks ts)]) rest

/-- `gbatchkit.jobs.prepare_multitask_job`: reject both task forms being
truthy, require runnables, then either dispatch the per-runnable loop, write
the shared `tasks.json` and set the job-group environment variable, or raise
because neither form was given. -/
def prepareMultitaskJob (job : JobDoc) (wd : String) (tasks : Option (List TaskDict))
    (runnableTasks : Option (List (List TaskDict))) : PrepResult :=
  if optTruthy tasks && optTruthy runnableTasks then
    { err := some (.valueError ("Specify tasks or runnable_tasks, not both")), job := job
    , files := [] }
  else
    match job.taskGroups with
    | [] => { err := some .indexError, job := job, files := [] }
    | tg :: _ =>
      if tg.taskSpec.runnables.isEmpty then
        { err := some (.valueError ("No runnables found in the job definition")), job := job
        , files := [] }
      else if optTruthy runnableTasks then
        let rtl := runnableTasks.getD []
        if rtl.length ≠ tg.taskSpec.runnables.length then
          { err := some (.valueError ("Wrong number of runnable task lists")), job := job
          , files := [] }
        else prepRunLoop wd tg.taskCount 0 job [] rtl
      else if optTruthy tasks then
        let tl := tasks.getD []
        if tl.length ≠ tg.taskCount then
          { err := some (.valueError ("Wrong number of tasks")), job := job, files := [] }
        else
          let path := wd ++ "/tasks.json"
          { err := none, job := setJobEnvVar0 job ("GBATCHKIT_ARGS_PATH") path
          , files := [(path, dumpTasks tl)] }
      else
        { err := some (.valueError ("Need to specify either tasks or runnable_tasks")), job := job
        , files := [] }

/-- Ambient state seen by `get_task_arguments`: the process environment, the
process command-line arguments (`sys.argv[1:]`), and the readable files, each
holding an already-parsed JSON array of task dictionaries. -/
structure World where
  env : List (String × String)
  argv : List String
  files : List (String × List TaskDict)

/-- `os.environ.get("GBATCHKIT_ARGS_PATH")` combined with the truthiness test
`elif args_path:` (an unset or empty variable is falsy). -/
def envArgsPath (w : World) : Option String :=
  match dictGet w.env ("GBATCHKIT_ARGS_PATH") with
  | none => none
  | some p => if p = "" then none else some p

/-- Python list indexing `l[i]` (negative indices count from the end). -/
def pyIndex {α : Type} (l : List α) (i : Int) : Option α :=
  if 0 ≤ i then l.get? i.toNat
  else if (-i).toNat ≤ l.length then l.get? (l.length - (-i).toNat) else none

/-- `gbatchkit.inputs.get_batch_indexed_task`: read the JSON array at the
given location and select the element at index `BATCH_TASK_INDEX`. -/
def getBatchIndexedTask (w : World) (uri : String) : Except PyErr TaskDict :=
  match dictGet w.files uri with
  | none => .error .ioError
  | some arr =>
    match dictGet w.env ("BATCH_TASK_INDEX") with
    | none => .error .keyError
    | some s =>
      match pyInt s.data with
      | none => .error (.valueError ("invalid literal for int"))
      | some i =>
        match pyIndex arr i with
        | none => .error .indexError
        | some t => .ok t

/-- One schema field as introspected by `parse_cmdline_args`: its name,
whether it is required, and the coercion applied to its flag value (the
field's declared type). -/
structure FieldSpec where
  name : String
  required : Bool
  coerce : String → Option JVal

/-- A pydantic model class as used by `get_task_arguments`: its field list
and its validating constructor `cls(**mapping)` (an `Except.error` models a
pydantic validation error). -/
structure PySchema (α : Type) where
  fields : List FieldSpec
  construct : TaskDict → Except String α

/-- The flag name of a `--name` token, when the token has that shape. -/
def flagKey (tok : String) : Option String :=
  match tok.data with
  | '-' :: '-' :: rest => some (String.mk rest)
  | _ => none

/-- Flag-token scan of `argparse`: `--name value` pairs, rejecting unknown
flags, missing values, and uncoercible values; later occurrences of a flag
override earlier ones. -/
def parseTokens (fields : List FieldSpec) (acc : List (String × JVal)) :
    List String → Except PyErr (List (String × JVal))
  | [] => .ok acc
  | tok :: rest =>
    match flagKey tok with
    | none => .error (.argError ("unrecognized arguments"))
    | some key =>
      match fields.find? (fun f => f.name = key) with
      | none => .error (.argError ("unrecognized arguments"))
      | some f =>
        match rest with
        | [] => .error (.argError ("expected one argument"))
        | v :: rest' =>
          match f.coerce v with
          | none => .error (.argError ("invalid value"))
          | some jv => parseTokens fields (dictSet acc key jv) rest'

/-- `gbatchkit.inputs.parse_cmdline_args`: synthesize one `--field` flag per
schema field, parse the tokens, enforce required fields, and drop absent
(`None`) values so omitted optional flags do not appear in the result. -/
def parseCmdlineArgs (fields : List FieldSpec) (args : List String) : Except PyErr TaskDict :=
  match parseTokens fields [] args with
  | .error e => .error e
  | .ok raw =>
    if fields.any (fun f => f.required && (dictGet raw f.name).isNone) then
      .error (.argError ("the following arguments are required"))
    else
      .ok (fields.filterMap (fun f => (dictGet raw f.name).map (fun v => (f.name, v))))

/-- Final step of `get_task_arguments`: instantiate the resolved mapping into
the typed schema shape when a schema was supplied, otherwise return the raw
mapping. -/
def finishSchema {α : Type} (schema : Option (PySchema α)) (r : Except PyErr TaskDict) :
    Except PyErr (α ⊕ TaskDict) :=
  match r with
  | .error e => .error e
  | .ok d =>
    match schema with
    | some sch =>
      match sch.construct d with
      | .error m => .error (.valueError m)
      | .ok a => .ok (.inl a)
    | none => .ok (.inr d)

/-- Python truthiness of the optional token list parameter `args`. -/
def argsTruthy (args : Option (List String)) : Bool :=
  match args with
  | some (_ :: _) => true
  | _ => false

/-- `gbatchkit.inputs.get_task_arguments`: three-tier resolution — truthy
explicit tokens with a schema, else the environment-named indexed task file,
else the schema against `sys.argv[1:]` (or the given non-`None` tokens), else
a configuration `ValueError`; a supplied schema validates the result. -/
def getTaskArguments {α : Type} (w : World) (schema : Option (PySchema α))
    (args : Option (List String)) : Except PyErr (α ⊕ TaskDict) :=
  match schema with
  | some sch =>
    if argsTruthy args then finishSchema schema (parseCmdlineArgs sch.fields (args.getD []))
    else
      match envArgsPath w with
      | some p => finishSchema schema (getBatchIndexedTask w p)
      | none =>
        let toks := match args with
          | none => w.argv
          | some l => l
        finishSchema schema (parseCmdlineArgs sch.fields toks)
  | none =>
    match envArgsPath w with
    | some p => finishSchema schema (getBatchIndexedTask w p)
    | none => .error (.valueError ("Need GBATCHKIT_ARGS_PATH env, or task_args_cls to read from args"))

/-- `taskGroups[0].taskCount` of a document. -/
def jobTaskCount (j : JobDoc) : Option Nat :=
  j.taskGroups.head?.map (fun tg => tg.taskCount)

/-- `taskGroups[0].taskSpec.runnables` of a document. -/
def jobRunnables (j : JobDoc) : Option (List RunnableEntry) :=
  j.taskGroups.head?.map (fun tg => tg.taskSpec.runnables)

/-- `allocationPolicy.instances[0].policy.disks` of a document. -/
def jobDisks (j : JobDoc) : Option (List Disk) :=
  match j.allocationPolicy with
  | none => none
  | some ap => ap.instances.head?.map (fun inst => inst.policy.disks)

/-- Lookup of a job-group environment variable
(`taskGroups[0].taskSpec.environment.variables[key]`). -/
def jobEnvLookup (j : JobDoc) (key : String) : Option String :=
  match j.taskGroups with
  | [] => none
  | tg :: _ => dictGet tg.taskSpec.environment key

/-- Lookup of a runnable-level environment variable of runnable `i`. -/
def runnableEnvLookup (j : JobDoc) (i : Nat) (key : String) : Option String :=
  match j.taskGroups with
  | [] => none
  | tg :: _ =>
    match tg.taskSpec.runnables.get? i with
    | none => none
    | some e => dictGet e.environment key

/-- True when an optional error is a raised `ValueError`. -/
def isSomeValueError : Option PyErr → Bool
  | some (.valueError _) => true
  | _ => false

/-- Order-preserving serialization of a runnable list; `none` as soon as one
runnable is of an unsupported variant. -/
def serializeRunnables : List Runnable → Option (List RunnableEntry)
  | [] => some []
  | r :: rs =>
    match serializeRunnable r with
    | none => none
    | some e =>
      match serializeRunnables rs with
      | none => none
      | some es => some (e :: es)

/-- The empty job document (Python `{}`). -/
def emptyDoc : JobDoc := ⟨[], none, none, none⟩

/-- A document holding only an allocation policy with one instance and no
disks, as in the repository's disk-attachment test. -/
def diskDoc0 : JobDoc :=
  { taskGroups := []
  , allocationPolicy :=
      some { instances := [⟨⟨"m", "SPOT", none, []⟩, none⟩]
           , allowedLocations := [], networkInterfaces := [], serviceAccount := none }
  , logsPolicy := none, dependencies := none }

/-- A runnable entry used by the concrete multitask fixtures. -/
def fixRunnable (img : String) : RunnableEntry := ⟨⟨img, "cmd", []⟩, []⟩

/-- A document with one runnable and task count 2 (shared-form fixture). -/
def prepDoc1 : JobDoc :=
  { taskGroups :=
      [ { taskSpec := ⟨[fixRunnable ("img")], 3, [⟨"RETRY_TASK", [50001]⟩], [], []⟩
        , taskCount := 2, taskCountPerNode := 1, parallelism := 1 } ]
  , allocationPolicy := none, logsPolicy := none, dependencies := none }

/-- A document with two runnables and task count 1 (per-runnable fixture). -/
def prepDoc2 : JobDoc :=
  { taskGroups :=
      [ { taskSpec := ⟨[fixRunnable ("img1"), fixRunnable ("img2")], 3, [⟨"RETRY_TASK", [50001]⟩], [], []⟩
        , taskCount := 1, taskCountPerNode := 1, parallelism := 1 } ]
  , allocationPolicy := none, logsPolicy := none, dependencies := none }

/-- A one-entry task payload. -/
def fixTask (n : Int) : TaskDict := [("task_id", JVal.i n)]

/-- Per-runnable task lists whose second list has the wrong length: the first
iteration of the preparation loop succeeds and mutates the document before
the second iteration raises. -/
def badRunnableTasks : List (List TaskDict) :=
  [[fixTask 1], [fixTask 2, fixTask 3]]

/-- Coercion of a flag value by an `int`-annotated pydantic field. -/
def intCoerce : String → Option JVal := fun s => (pyInt s.data).map (fun n => JVal.i n)

/-- Coercion of a flag value by a `str`-annotated pydantic field. -/
def strCoerce : String → Option JVal := fun s => some (JVal.s s)

/-- The two-field `TaskArgs` pydantic model of the repository's tests
(`arg1: int`, `arg2: str`). -/
structure TaskArgsEx where
  arg1 : Int
  arg2 : String
deriving DecidableEq

/-- The schema of `TaskArgsEx`: both fields required, `int`/`str` coercions,
and the validating constructor. -/
def taskArgsSchema : PySchema TaskArgsEx :=
  { fields := [⟨"arg1", true, intCoerce⟩, ⟨"arg2", true, strCoerce⟩]
  , construct := fun d =>
      match dictGet d ("arg1"), dictGet d ("arg2") with
      | some (.i n), some (.s s) => .ok ⟨n, s⟩
      | _, _ => .error "validation error" }

/-- A world with a two-element task file, index 1, and distinct process
arguments, mirroring the repository's resolver tests. -/
def fixWorld : World :=
  { env := [("GBATCHKIT_ARGS_PATH", "/f"), ("BATCH_TASK_INDEX", "1")]
  , argv := ["--arg1", "999", "--arg2", "argvval"]
  , files := [("/f", [ [("arg1", JVal.i 100), ("arg2", JVal.s "value1")]
                     , [("arg1", JVal.i 200), ("arg2", JVal.s "value2")] ])] }

/-- The fixture document `diskDoc0` after attaching a 7 GB disk `"d"`. -/
def diskDoc0w : JobDoc :=
  { taskGroups := []
  , allocationPolicy :=
      some { instances := [⟨⟨"m", "SPOT", none, [⟨"d", "t", 7⟩]⟩, none⟩]
           , allowedLocations := [], networkInterfaces := [], serviceAccount := none }
  , logsPolicy := none, dependencies := none }

/-- A plain compute configuration: default machine, SPOT, no accelerator. -/
def ccPlain : ComputeConfig := ⟨"n1-standard-1", "SPOT", 0, ""⟩

/-- The document produced by `create_standard_job` for region `"r"`, the
plain compute config, task count 2, and one container runnable. -/
def csjDoc : JobDoc :=
  { taskGroups :=
      [ { taskSpec :=
            { runnables := [⟨⟨"img", "ep", ["a"]⟩, []⟩]
            , maxRetryCount := 3
            , lifecyclePolicies := [⟨"RETRY_TASK", [50001]⟩]
            , environment := [], volumes := [] }
        , taskCount := 2, taskCountPerNode := 1, parallelism := 1 } ]
  , allocationPolicy := some (allocPolicyFor ("r") ccPlain)
  , logsPolicy := some "CLOUD_LOGGING"
  , dependencies := none }

/-- A document whose single task group has no runnables. -/
def noRunnablesDoc : JobDoc :=
  { taskGroups :=
      [ { taskSpec := ⟨[], 3, [⟨"RETRY_TASK", [50001]⟩], [], []⟩
        , taskCount := 1, taskCountPerNode := 1, parallelism := 1 } ]
  , allocationPolicy := none, logsPolicy := none, dependencies := none }

theorem dictSet_append {α : Type} (d : List (String × α)) (k : String) (v : α)
    (h : ∀ p ∈ d, p.1 ≠ k) : dictSet d k v = d ++ [(k, v)] := by
  induction d with
  | nil => rfl
  | cons p rest ih =>
    have hp : p.1 ≠ k := h p (List.mem_cons_self p rest)
    cases p with
    | mk k' v' =>
      simp only [dictSet]
      rw [if_neg hp]
      simp only [List.cons_append, List.cons.injEq, true_and]
      exact ih (fun q hq => h q (List.mem_cons_of_mem _ hq))

theorem foldl_dictSet (v : String) (ids : List String) (acc : List (String × String))
    (hnd : ids.Nodup) (hdisj : ∀ i ∈ ids, ∀ p ∈ acc, p.1 ≠ i) :
    ids.foldl (fun a i => dictSet a i v) acc = acc ++ ids.map (fun i => (i, v)) := by
  induction ids generalizing acc with
  | nil => simp
  | cons i rest ih =>
    simp only [List.foldl_cons, List.map_cons]
    rw [dictSet_append acc i v (fun p hp => hdisj i (List.mem_cons_self i rest) p hp)]
    rw [ih (acc ++ [(i, v)]) (List.Nodup.of_cons hnd)]
    · simp
    · intro j hj p hp
      rcases List.mem_append.mp hp with hp1 | hp2
      · exact hdisj j (List.mem_cons_of_mem _ hj) p hp1
      · have hpv : p = (i, v) := List.mem_singleton.mp hp2
        subst hpv
        intro hcontra
        have hij : i = j := hcontra
        exact (List.nodup_cons.mp hnd).1 (hij ▸ hj)

/-- C9: `add_attached_disk` appends a disk whose stored size is the size
rounded up to a whole number of GB and floored at 1, i.e.
`max (ceil size) 1`; in particular 0.4 GB is stored as 1 and 123.456 GB is
stored as 124. -/
theorem c9_attached_disk_size :
    (∀ (j : JobDoc) (n : String) (sz : ℚ) (dt : String) (j' : JobDoc) (ds : List Disk),
       addAttachedDisk j n sz dt = .ok j' → jobDisks j = some ds →
       jobDisks j' = some (ds ++ [⟨n, dt, max (Rat.ceil sz) 1⟩])) ∧
    ((addAttachedDisk diskDoc0 ("d04") (0.4 : ℚ) ("pd-balanced")).map jobDisks =
       .ok (some [⟨"d04", "pd-balanced", 1⟩])) ∧
    ((addAttachedDisk diskDoc0 ("d123") (123.456 : ℚ) ("pd-balanced")).map jobDisks =
       .ok (some [⟨"d123", "pd-balanced", 124⟩])) := by
  refine ⟨?_, ?_, ?_⟩
  · intro j n sz dt j' ds h hds
    unfold addAttachedDisk at h
    split at h
    · exact absurd h (by simp)
    · rename_i ap hap
      split at h
      · exact absurd h (by simp)
      · rename_i inst rest hinst
        simp only [Except.ok.injEq] at h
        subst h
        have hds' : inst.policy.disks = ds := by
          simp only [jobDisks, hap, hinst, List.head?_cons] at hds
          simpa using hds
        simp [jobDisks, ← hds']
  · have h4 : (0.4 : ℚ) = mkRat 2 5 := by norm_num [mkRat, Rat.normalize]
    rw [h4]; decide
  · have h4 : (123.456 : ℚ) = mkRat 15432 125 := by norm_num [mkRat, Rat.normalize]
    rw [h4]; decide

/-- Concrete application of the C9 size law: attaching a 7 GB disk to the
fixture document stores size 7. -/
theorem c9_attached_disk_size_witness :
    jobDisks diskDoc0w = some ([] ++ [⟨"d", "t", max (Rat.ceil (7 : ℚ)) 1⟩]) := by
  exact c9_attached_disk_size.1 diskDoc0 ("d") (7 : ℚ) ("t") diskDoc0w [] (by decide) (by decide)

/-- C7: `add_job_dependencies` drops falsy ids and is a no-op when none
remain; otherwise, on a document without prior dependencies, it creates a
single dependency group mapping each surviving id to `"SUCCEEDED"` in input
order. -/
theorem c7_job_dependencies :
    (∀ (j : JobDoc) (ids : List String),
       ids.filter (fun s => s ≠ "") = [] → addJobDependencies j ids = .ok j) ∧
    (∀ (j : JobDoc) (ids : List String), j.dependencies = none →
       (ids.filter (fun s => s ≠ "")).Nodup → ids.filter (fun s => s ≠ "") ≠ [] →
       addJobDependencies j ids =
         .ok { j with dependencies := some [⟨(ids.filter (fun s => s ≠ "")).map (fun i => (i, "SUCCEEDED"))⟩] }) := by
  constructor
  · intro j ids h
    unfold addJobDependencies
    simp only [h, if_pos]
  · intro j ids hdep hnd hne
    unfold addJobDependencies
    rw [if_neg hne, hdep]
    simp only []
    rw [foldl_dictSet ("SUCCEEDED") _ [] hnd (by intro i _ p hp; cases hp)]
    simp

/-- Concrete application of C7: `["a", "b"]` on a fresh document yields the
single group mapping both ids to `"SUCCEEDED"`, and `[]` is a no-op. -/
theorem c7_job_dependencies_witness :
    addJobDependencies emptyDoc ["a", "b"] =
      .ok { emptyDoc with dependencies := some [⟨[("a", "SUCCEEDED"), ("b", "SUCCEEDED")]⟩] } ∧
    addJobDependencies emptyDoc [] = .ok emptyDoc := by
  constructor
  · have h := c7_job_dependencies.2 emptyDoc ["a", "b"] (by decide) (by decide) (by decide)
    exact h.trans (by decide)
  · exact c7_job_dependencies.1 emptyDoc [] (by decide)

/-- C6: `apply_allocation_policy` rejects an accelerator type set without a
nonzero count (or vice versa) and rejects provisioning models other than
`SPOT`/`STANDARD`; with no accelerator it succeeds and the written policy has
no accelerators field and no `installGpuDrivers` flag, while with a full
accelerator it sets `installGpuDrivers` and the type/count descriptor. -/
theorem c6_allocation_policy :
    (∀ (j : JobDoc) (r : String) (cc : ComputeConfig),
       (cc.accelerator_type ≠ "" ∧ cc.accelerator_count = 0) ∨
       (cc.accelerator_count ≠ 0 ∧ cc.accelerator_type = "") →
       isValueError (applyAllocationPolicy j r cc) = true) ∧
    (∀ (j : JobDoc) (r : String) (cc : ComputeConfig),
       cc.provisioning_model ≠ "SPOT" → cc.provisioning_model ≠ "STANDARD" →
       isValueError (applyAllocationPolicy j r cc) = true) ∧
    (∀ (j : JobDoc) (r : String) (cc : ComputeConfig),
       cc.accelerator_type = "" → cc.accelerator_count = 0 →
       (cc.provisioning_model = "SPOT" ∨ cc.provisioning_model = "STANDARD") →
       applyAllocationPolicy j r cc = .ok { j with allocationPolicy := some (allocPolicyFor r cc) } ∧
       (allocPolicyFor r cc).instances.map
         (fun inst => (inst.policy.accelerators, inst.installGpuDrivers)) = [(none, none)]) ∧
    (∀ (j : JobDoc) (r : String) (cc : ComputeConfig),
       cc.accelerator_type ≠ "" → cc.accelerator_count ≠ 0 →
       (cc.provisioning_model = "SPOT" ∨ cc.provisioning_model = "STANDARD") →
       applyAllocationPolicy j r cc = .ok { j with allocationPolicy := some (allocPolicyFor r cc) } ∧
       (allocPolicyFor r cc).instances.map
         (fun inst => (inst.policy.accelerators, inst.installGpuDrivers)) =
         [(some [⟨cc.accelerator_type, cc.accelerator_count⟩], some true)]) := by
  refine ⟨?_, ?_, ?_, ?_⟩
  · intro j r cc h
    unfold applyAllocationPolicy
    rw [if_pos h]
    rfl
  · intro j r cc h1 h2
    unfold applyAllocationPolicy
    split
    · rfl
    · rw [if_pos ⟨h1, h2⟩]
      rfl
  · intro j r cc ht hc hpm
    have hnot : ¬ ((cc.accelerator_type ≠ "" ∧ cc.accelerator_count = 0) ∨
        (cc.accelerator_count ≠ 0 ∧ cc.accelerator_type = "")) := by
      simp [ht, hc]
    have hpm' : ¬ (cc.provisioning_model ≠ "SPOT" ∧ cc.provisioning_model ≠ "STANDARD") := by
      rcases hpm with h | h <;> simp [h]
    constructor
    · unfold applyAllocationPolicy
      rw [if_neg hnot, if_neg hpm']
    · unfold allocPolicyFor
      simp [ht]
  · intro j r cc ht hc hpm
    have hnot : ¬ ((cc.accelerator_type ≠ "" ∧ cc.accelerator_count = 0) ∨
        (cc.accelerator_count ≠ 0 ∧ cc.accelerator_type = "")) := by
      simp [ht, hc]
    have hpm' : ¬ (cc.provisioning_model ≠ "SPOT" ∧ cc.provisioning_model ≠ "STANDARD") := by
      rcases hpm with h | h <;> simp [h]
    constructor
    · unfold applyAllocationPolicy
      rw [if_neg hnot, if_neg hpm']
    · unfold allocPolicyFor
      simp [ht]

/-- Concrete application of C6: a type-without-count config is rejected and a
plain config yields a policy with no accelerators and no driver flag. -/
theorem c6_allocation_policy_witness :
    isValueError (applyAllocationPolicy emptyDoc ("r") ⟨"m", "SPOT", 0, "gpu"⟩) = true ∧
    applyAllocationPolicy emptyDoc ("r") ccPlain =
      .ok { emptyDoc with allocationPolicy := some (allocPolicyFor ("r") ccPlain) } ∧
    (allocPolicyFor ("r") ccPlain).instances.map
      (fun inst => (inst.policy.accelerators, inst.installGpuDrivers)) = [(none, none)] := by
  refine ⟨?_, ?_, ?_⟩
  · exact c6_allocation_policy.1 emptyDoc ("r") ⟨"m", "SPOT", 0, "gpu"⟩ (by decide)
  · exact (c6_allocation_policy.2.2.1 emptyDoc ("r") ccPlain (by decide) (by decide)
      (Or.inl (by decide))).1
  · exact (c6_allocation_policy.2.2.1 emptyDoc ("r") ccPlain (by decide) (by decide)
      (Or.inl (by decide))).2

theorem serializeRunnables_length (rs : List Runnable) (l : List RunnableEntry)
    (h : serializeRunnables rs = some l) : l.length = rs.length := by
  induction rs generalizing l with
  | nil =>
    unfold serializeRunnables at h
    simp only [Option.some.injEq] at h
    subst h
    rfl
  | cons r rest ih =>
    unfold serializeRunnables at h
    split at h
    · exact absurd h (by simp)
    · rename_i e he
      split at h
      · exact absurd h (by simp)
      · rename_i es hes
        simp only [Option.some.injEq] at h
        subst h
        simp [ih es hes]

theorem addRunnables_ok (rs : List Runnable) (job j' : JobDoc) (tg : TaskGroup)
    (rest : List TaskGroup) (hj : job.taskGroups = tg :: rest)
    (h : addRunnables job rs = .ok j') :
    ∃ entries, serializeRunnables rs = some entries ∧
      j'.taskGroups =
        ({ tg with taskSpec :=
            { tg.taskSpec with runnables := tg.taskSpec.runnables ++ entries } }) :: rest := by
  induction rs generalizing job tg with
  | nil =>
    unfold addRunnables at h
    simp only [Except.ok.injEq] at h
    subst h
    refine ⟨[], rfl, ?_⟩
    rw [hj]
    simp
  | cons r rs ih =>
    unfold addRunnables at h
    cases hr : addRunnable job r with
    | error e => rw [hr] at h; exact absurd h (by simp)
    | ok j1 =>
      rw [hr] at h
      unfold addRunnable at hr
      rw [hj] at hr
      cases hs : serializeRunnable r with
      | none => rw [hs] at hr; exact absurd hr (by simp)
      | some e =>
        rw [hs] at hr
        simp only [Except.ok.injEq] at hr
        obtain ⟨entries, hse, htg⟩ :=
          ih j1 ({ tg with taskSpec :=
            { tg.taskSpec with runnables := tg.taskSpec.runnables ++ [e] } }) (by rw [← hr]) h
        refine ⟨e :: entries, ?_, ?_⟩
        · unfold serializeRunnables
          rw [hs, hse]
        · rw [htg]
          simp

theorem applyAllocationPolicy_taskGroups (j : JobDoc) (r : String) (cc : ComputeConfig)
    (j' : JobDoc) (h : applyAllocationPolicy j r cc = .ok j') : j'.taskGroups = j.taskGroups := by
  unfold applyAllocationPolicy at h
  split at h
  · exact absurd h (by simp)
  · split at h
    · exact absurd h (by simp)
    · simp only [Except.ok.injEq] at h
      subst h
      rfl

theorem addAttachedDisk_taskGroups (j : JobDoc) (n : String) (sz : ℚ) (dt : String)
    (j' : JobDoc) (h : addAttachedDisk j n sz dt = .ok j') : j'.taskGroups = j.taskGroups := by
  unfold addAttachedDisk at h
  split at h
  · exact absurd h (by simp)
  · split at h
    · exact absurd h (by simp)
    · simp only [Except.ok.injEq] at h
      subst h
      rfl

/-- The observable head-group shape relevant to C1: task count and runnable
list of `taskGroups[0]`. -/
def tgShape (j : JobDoc) : Option (Nat × List RunnableEntry) :=
  j.taskGroups.head?.map (fun tg => (tg.taskCount, tg.taskSpec.runnables))

theorem tgShape_of_taskGroups_eq (j j' : JobDoc) (h : j'.taskGroups = j.taskGroups) :
    tgShape j' = tgShape j := by
  unfold tgShape
  rw [h]

theorem addJobStorageVolume_shape (j : JobDoc) (d v : String) (j' : JobDoc)
    (h : addJobStorageVolume j d v = .ok j') : tgShape j' = tgShape j := by
  unfold addJobStorageVolume at h
  split at h
  · exact absurd h (by simp)
  · rename_i tg rest htg
    simp only [Except.ok.injEq] at h
    subst h
    unfold tgShape
    rw [htg]
    rfl

theorem setJobEnvironmentVariable_shape (j : JobDoc) (k v : String) (j' : JobDoc)
    (h : setJobEnvironmentVariable j k v = .ok j') : tgShape j' = tgShape j := by
  unfold setJobEnvironmentVariable at h
  split at h
  · exact absurd h (by simp)
  · rename_i tg rest htg
    simp only [Except.ok.injEq] at h
    subst h
    unfold tgShape
    rw [htg]
    rfl

theorem addTmpDir_shape (j : JobDoc) (d : String) (sz : Option ℚ) (j' : JobDoc)
    (h : addTmpDir j d sz = .ok j') : tgShape j' = tgShape j := by
  unfold addTmpDir at h
  split at h
  · exact absurd h (by simp)
  · split at h
    · exact absurd h (by simp)
    · rename_i j1 h1
      split at h
      · exact absurd h (by simp)
      · rename_i j2 h2
        calc tgShape j' = tgShape j2 := setJobEnvironmentVariable_shape j2 _ _ j' h
          _ = tgShape j1 := addJobStorageVolume_shape j1 d _ j2 h2
          _ = tgShape j := tgShape_of_taskGroups_eq j j1 (addAttachedDisk_taskGroups j _ _ _ j1 h1)

theorem addNetworkingInterface_taskGroups (j : JobDoc) (ni : NetworkInterfaceConfig)
    (j' : JobDoc) (h : addNetworkingInterface j ni = .ok j') : j'.taskGroups = j.taskGroups := by
  unfold addNetworkingInterface at h
  split at h
  · exact absurd h (by simp)
  · simp only [Except.ok.injEq] at h
    subst h
    rfl

theorem addServiceAccount_taskGroups (j : JobDoc) (sa : ServiceAccountConfig)
    (j' : JobDoc) (h : addServiceAccount j sa = .ok j') : j'.taskGroups = j.taskGroups := by
  unfold addServiceAccount at h
  split at h
  · exact absurd h (by simp)
  · simp only [Except.ok.injEq] at h
    subst h
    rfl

theorem addJobDependencies_taskGroups (j : JobDoc) (ids : List String)
    (j' : JobDoc) (h : addJobDependencies j ids = .ok j') : j'.taskGroups = j.taskGroups := by
  simp only [addJobDependencies] at h
  split at h
  · simp only [Except.ok.injEq] at h
    subst h
    rfl
  · split at h
    · exact absurd h (by simp)
    · simp only [Except.ok.injEq] at h
      subst h
      rfl

theorem tgShape_eq_some (j : JobDoc) (tc : Nat) (rs : List RunnableEntry)
    (h : tgShape j = some (tc, rs)) : jobTaskCount j = some tc ∧ jobRunnables j = some rs := by
  unfold tgShape at h
  unfold jobTaskCount jobRunnables
  cases hj : j.taskGroups.head? with
  | none => rw [hj] at h; exact absurd h (by simp)
  | some tg =>
    rw [hj] at h
    simp only [Option.map_some', Option.some.injEq, Prod.mk.injEq] at h
    simp [h.1, h.2]

/-- C1: whenever `create_standard_job` succeeds, the returned document's
`taskGroups[0].taskCount` equals the given task count and its
`taskGroups[0].taskSpec.runnables` are exactly the input runnables serialized
in input order, hence of the same length as the input list. -/
theorem c1_standard_job_shape (region : String) (cc : ComputeConfig) (taskCount : Nat)
    (runnables : List Runnable) (parallelism taskCountPerNode : Nat)
    (tmpDir : Option String) (tmpDirSizeGb : Option ℚ)
    (ni : Option NetworkInterfaceConfig) (sa : Option ServiceAccountConfig)
    (deps : Option (List String)) (doc : JobDoc)
    (h : createStandardJob region cc taskCount runnables parallelism taskCountPerNode
           tmpDir tmpDirSizeGb ni sa deps = .ok doc) :
    jobTaskCount doc = some taskCount ∧
    jobRunnables doc = serializeRunnables runnables ∧
    (∀ l, jobRunnables doc = some l → l.length = runnables.length) := by
  unfold createStandardJob at h
  split at h
  · exact absurd h (by simp)
  · rename_i j1 h1
    split at h
    · exact absurd h (by simp)
    · rename_i j2 h2
      split at h
      · exact absurd h (by simp)
      · rename_i j4 h4
        split at h
        · exact absurd h (by simp)
        · rename_i j5 h5
          split at h
          · exact absurd h (by simp)
          · rename_i j6 h6
            have hsd : tgShape doc = tgShape j6 := by
              split at h
              · exact tgShape_of_taskGroups_eq j6 doc
                  (addJobDependencies_taskGroups j6 _ doc h)
              · simp only [Except.ok.injEq] at h
                subst h
                rfl
            have hs6 : tgShape j6 = tgShape j5 := by
              split at h6
              · exact tgShape_of_taskGroups_eq j5 j6
                  (addServiceAccount_taskGroups j5 _ j6 h6)
              · simp only [Except.ok.injEq] at h6
                subst h6
                rfl
            have hs5 : tgShape j5 = tgShape j4 := by
              split at h5
              · exact tgShape_of_taskGroups_eq j4 j5
                  (addNetworkingInterface_taskGroups j4 _ j5 h5)
              · simp only [Except.ok.injEq] at h5
                subst h5
                rfl
            have hs4 : tgShape j4 = tgShape j2 := by
              split at h4
              · exact (addTmpDir_shape (applyCloudLogPolicy j2) _ _ j4 h4).trans
                  (tgShape_of_taskGroups_eq j2 (applyCloudLogPolicy j2) rfl)
              · simp only [Except.ok.injEq] at h4
                subst h4
                exact tgShape_of_taskGroups_eq j2 (applyCloudLogPolicy j2) rfl
            have hs2 : tgShape j2 = tgShape j1 :=
              tgShape_of_taskGroups_eq j1 j2 (applyAllocationPolicy_taskGroups j1 region cc j2 h2)
            obtain ⟨entries, hse, htg⟩ := addRunnables_ok runnables _ j1 _ [] rfl h1
            have hs1 : tgShape j1 = some (taskCount, entries) := by
              unfold tgShape
              rw [htg]
              simp
            have hshape : tgShape doc = some (taskCount, entries) := by
              rw [hsd, hs6, hs5, hs4, hs2, hs1]
            obtain ⟨htc, hrn⟩ := tgShape_eq_some doc taskCount entries hshape
            refine ⟨htc, ?_, ?_⟩
            · rw [hrn, hse]
            · intro l hl
              rw [hrn] at hl
              simp only [Option.some.injEq] at hl
              subst hl
              exact serializeRunnables_length runnables _ hse

/-- Concrete application of C1: one container runnable and task count 2. -/
theorem c1_standard_job_shape_witness :
    jobTaskCount csjDoc = some 2 ∧
    jobRunnables csjDoc = serializeRunnables [.container ⟨"img", "ep", ["a"]⟩] := by
  have h := c1_standard_job_shape ("r") ccPlain 2 [.container ⟨"img", "ep", ["a"]⟩] 1 1
    none none none none none csjDoc (by decide)
  exact ⟨h.1, h.2.1⟩

theorem dictGet_dictSet {α : Type} (d : List (String × α)) (k : String) (v : α) :
    dictGet (dictSet d k v) k = some v := by
  induction d with
  | nil => simp [dictSet, dictGet]
  | cons p rest ih =>
    cases p with
    | mk k' v' =>
      unfold dictSet
      by_cases hk : k' = k
      · subst hk
        simp [dictGet]
      · rw [if_neg hk]
        unfold dictGet
        rw [if_neg hk]
        exact ih

/-- C2 counterexample: on a two-runnable document with task count 1, the
per-runnable form whose second list has the wrong length raises, yet the
document keeps the first runnable's already-set environment variable and the
first runnable's task file has already been written. -/
theorem c2_atomicity_counterexample :
    (prepareMultitaskJob prepDoc2 ("/w") none (some badRunnableTasks)).err.isSome = true ∧
    (prepareMultitaskJob prepDoc2 ("/w") none (some badRunnableTasks)).job ≠ prepDoc2 ∧
    runnableEnvLookup (prepareMultitaskJob prepDoc2 ("/w") none (some badRunnableTasks)).job 0
      ("GBATCHKIT_ARGS_PATH") = some "/w/runnable_0_tasks.json" ∧
    (prepareMultitaskJob prepDoc2 ("/w") none (some badRunnableTasks)).files =
      [("/w/runnable_0_tasks.json", "[\x7b\"task_id\": 1\x7d]")] := by
  refine ⟨by decide, by decide, by decide, by decide⟩

/-- C2 (amended): every failure of `prepare_multitask_job` raised before the
per-runnable loop is atomic — any error when the per-runnable form is not
used (neither-form error, missing runnables, shared-list length mismatch),
the both-forms-given error, the missing-runnables error under any form
combination, and the runnable-count mismatch error each leave the given
document unchanged with no files written. -/
theorem c2_prepare_error_atomicity :
    (∀ (job : JobDoc) (wd : String) (tasks : Option (List TaskDict))
       (rts : Option (List (List TaskDict))), optTruthy rts = false →
       (prepareMultitaskJob job wd tasks rts).err.isSome = true →
       (prepareMultitaskJob job wd tasks rts).job = job ∧
       (prepareMultitaskJob job wd tasks rts).files = []) ∧
    (∀ (job : JobDoc) (wd : String) (tasks : Option (List TaskDict))
       (rts : Option (List (List TaskDict))),
       optTruthy tasks = true → optTruthy rts = true →
       (prepareMultitaskJob job wd tasks rts).job = job ∧
       (prepareMultitaskJob job wd tasks rts).files = [] ∧
       (prepareMultitaskJob job wd tasks rts).err.isSome = true) ∧
    (∀ (job : JobDoc) (wd : String) (tasks : Option (List TaskDict))
       (rts : Option (List (List TaskDict))) (tg : TaskGroup) (rest : List TaskGroup),
       job.taskGroups = tg :: rest → tg.taskSpec.runnables = [] →
       (prepareMultitaskJob job wd tasks rts).job = job ∧
       (prepareMultitaskJob job wd tasks rts).files = [] ∧
       (prepareMultitaskJob job wd tasks rts).err.isSome = true) ∧
    (∀ (job : JobDoc) (wd : String) (tasks : Option (List TaskDict))
       (rtl : List (List TaskDict)) (tg : TaskGroup) (rest : List TaskGroup),
       job.taskGroups = tg :: rest → tg.taskSpec.runnables ≠ [] →
       optTruthy tasks = false → rtl ≠ [] →
       rtl.length ≠ tg.taskSpec.runnables.length →
       (prepareMultitaskJob job wd tasks (some rtl)).job = job ∧
       (prepareMultitaskJob job wd tasks (some rtl)).files = [] ∧
       (prepareMultitaskJob job wd tasks (some rtl)).err.isSome = true) := by
  refine ⟨?_, ?_, ?_, ?_⟩
  · intro job wd tasks rts hrts herr
    have hcases : (prepareMultitaskJob job wd tasks rts).err.isSome = false ∨
        ((prepareMultitaskJob job wd tasks rts).job = job ∧
         (prepareMultitaskJob job wd tasks rts).files = []) := by
      unfold prepareMultitaskJob
      rw [hrts]
      repeat' split
      all_goals try simp_all
      all_goals split <;> simp_all
    rcases hcases with hc | hc
    · rw [herr] at hc
      cases hc
    · exact hc
  · intro job wd tasks rts ht hr
    unfold prepareMultitaskJob
    rw [ht, hr]
    exact ⟨rfl, rfl, rfl⟩
  · intro job wd tasks rts tg rest hjg hre
    unfold prepareMultitaskJob
    split
    · exact ⟨rfl, rfl, rfl⟩
    · rw [hjg]
      simp [hre]
  · intro job wd tasks rtl tg rest hjg hre htasks hne hlen
    have hreb : tg.taskSpec.runnables.isEmpty = false := by
      cases hl : tg.taskSpec.runnables with
      | nil => exact absurd hl hre
      | cons a l => rfl
    have hilb : rtl.isEmpty = false := by
      cases hl : rtl with
      | nil => exact absurd hl hne
      | cons a l => rfl
    have hrtlT : optTruthy (some rtl) = true := by
      simp [optTruthy, hilb]
    simp [prepareMultitaskJob, hjg, hreb, hilb, htasks, hrtlT, hlen]

/-- Concrete applications of the amended C2: a shared task list of wrong
length, both forms given at once, and a per-runnable list on a document
without runnables all fail while leaving the document unchanged and writing
no files. -/
theorem c2_prepare_error_atomicity_witness :
    (prepareMultitaskJob prepDoc1 ("/w") (some [fixTask 1]) none).job = prepDoc1 ∧
    (prepareMultitaskJob prepDoc1 ("/w") (some [fixTask 1]) none).files = [] ∧
    (prepareMultitaskJob prepDoc1 ("/w") (some [fixTask 1]) (some badRunnableTasks)).job =
      prepDoc1 ∧
    (prepareMultitaskJob prepDoc1 ("/w") (some [fixTask 1]) (some badRunnableTasks)).files = [] ∧
    (prepareMultitaskJob noRunnablesDoc ("/w") none (some badRunnableTasks)).job =
      noRunnablesDoc ∧
    (prepareMultitaskJob noRunnablesDoc ("/w") none (some badRunnableTasks)).files = [] := by
  have h1 := c2_prepare_error_atomicity.1 prepDoc1 ("/w") (some [fixTask 1]) none
    (by decide) (by decide)
  have h2 := c2_prepare_error_atomicity.2.1 prepDoc1 ("/w") (some [fixTask 1])
    (some badRunnableTasks) (by decide) (by decide)
  have h3 := c2_prepare_error_atomicity.2.2.1 noRunnablesDoc ("/w") none
    (some badRunnableTasks)
    ({ taskSpec := ⟨[], 3, [⟨"RETRY_TASK", [50001]⟩], [], []⟩
     , taskCount := 1, taskCountPerNode := 1, parallelism := 1 })
    [] (by decide) (by decide)
  exact ⟨h1.1, h1.2, h2.1, h2.2.1, h3.1, h3.2.1⟩

/-- C8: `prepare_multitask_job` fails with a validation error when both task
forms are given (truthy) or neither is, fails when the document has no
runnables, and fails when the shared list's length differs from the task
count; with a matching shared list it succeeds, writes exactly one file at
`{wd}/tasks.json` holding the JSON-serialized array in original order, and
sets the job-group environment variable to that path. -/
theorem c8_prepare_multitask_contract :
    (∀ (job : JobDoc) (wd : String) (tasks : Option (List TaskDict))
       (rts : Option (List (List TaskDict))),
       optTruthy tasks = true → optTruthy rts = true →
       isSomeValueError (prepareMultitaskJob job wd tasks rts).err = true) ∧
    (∀ (job : JobDoc) (wd : String) (tasks : Option (List TaskDict))
       (rts : Option (List (List TaskDict))) (tg : TaskGroup) (rest : List TaskGroup),
       job.taskGroups = tg :: rest →
       optTruthy tasks = false → optTruthy rts = false →
       isSomeValueError (prepareMultitaskJob job wd tasks rts).err = true) ∧
    (∀ (job : JobDoc) (wd : String) (tasks : Option (List TaskDict))
       (rts : Option (List (List TaskDict))) (tg : TaskGroup) (rest : List TaskGroup),
       job.taskGroups = tg :: rest → tg.taskSpec.runnables = [] →
       isSomeValueError (prepareMultitaskJob job wd tasks rts).err = true) ∧
    (∀ (job : JobDoc) (wd : String) (tl : List TaskDict) (tg : TaskGroup)
       (rest : List TaskGroup),
       job.taskGroups = tg :: rest → tg.taskSpec.runnables ≠ [] → tl ≠ [] →
       tl.length ≠ tg.taskCount →
       isSomeValueError (prepareMultitaskJob job wd (some tl) none).err = true) ∧
    (∀ (job : JobDoc) (wd : String) (tl : List TaskDict) (tg : TaskGroup)
       (rest : List TaskGroup),
       job.taskGroups = tg :: rest → tg.taskSpec.runnables ≠ [] → tl ≠ [] →
       tl.length = tg.taskCount →
       (prepareMultitaskJob job wd (some tl) none).err = none ∧
       (prepareMultitaskJob job wd (some tl) none).files =
         [(wd ++ "/tasks.json", dumpTasks tl)] ∧
       jobEnvLookup (prepareMultitaskJob job wd (some tl) none).job ("GBATCHKIT_ARGS_PATH") =
         some (wd ++ "/tasks.json")) := by
  refine ⟨?_, ?_, ?_, ?_, ?_⟩
  · intro job wd tasks rts ht hr
    unfold prepareMultitaskJob
    rw [ht, hr]
    rfl
  · intro job wd tasks rts tg rest hjg ht hr
    unfold prepareMultitaskJob
    rw [ht, hr, hjg]
    simp only [Bool.and_false, Bool.false_eq_true, if_false]
    split
    · rfl
    · rfl
  · intro job wd tasks rts tg rest hjg hre
    unfold prepareMultitaskJob
    rw [hjg]
    split
    · rfl
    · simp only [hre, List.isEmpty_nil, if_true]
      rfl
  · intro job wd tl tg rest hjg hre htl hlen
    have hreb : tg.taskSpec.runnables.isEmpty = false := by
      cases hl : tg.taskSpec.runnables with
      | nil => exact absurd hl hre
      | cons a l => rfl
    have hilb : tl.isEmpty = false := by
      cases hl : tl with
      | nil => exact absurd hl htl
      | cons a l => rfl
    simp [prepareMultitaskJob, hjg, hreb, hilb, optTruthy, hlen, isSomeValueError]
  · intro job wd tl tg rest hjg hre htl hlen
    have hreb : tg.taskSpec.runnables.isEmpty = false := by
      cases hl : tg.taskSpec.runnables with
      | nil => exact absurd hl hre
      | cons a l => rfl
    have hilb : tl.isEmpty = false := by
      cases hl : tl with
      | nil => exact absurd hl htl
      | cons a l => rfl
    have hres : prepareMultitaskJob job wd (some tl) none =
        { err := none, job := setJobEnvVar0 job ("GBATCHKIT_ARGS_PATH") (wd ++ "/tasks.json")
        , files := [(wd ++ "/tasks.json", dumpTasks tl)] } := by
      simp [prepareMultitaskJob, hjg, hreb, hilb, optTruthy, hlen]
    rw [hres]
    refine ⟨rfl, rfl, ?_⟩
    unfold setJobEnvVar0
    rw [hjg]
    unfold jobEnvLookup
    simp [dictGet_dictSet]

/-- Concrete application of C8: the one-runnable fixture with a matching
two-task shared list writes exactly `tasks.json` and sets the variable; with
both forms given it fails. -/
theorem c8_prepare_multitask_contract_witness :
    (prepareMultitaskJob prepDoc1 ("/w") (some [fixTask 1, fixTask 2]) none).err = none ∧
    (prepareMultitaskJob prepDoc1 ("/w") (some [fixTask 1, fixTask 2]) none).files =
      [("/w" ++ "/tasks.json", dumpTasks [fixTask 1, fixTask 2])] ∧
    jobEnvLookup (prepareMultitaskJob prepDoc1 ("/w") (some [fixTask 1, fixTask 2]) none).job
      ("GBATCHKIT_ARGS_PATH") = some ("/w" ++ "/tasks.json") ∧
    isSomeValueError
      (prepareMultitaskJob prepDoc1 ("/w") (some [fixTask 1]) (some [[fixTask 1]])).err = true := by
  have h5 := c8_prepare_multitask_contract.2.2.2.2 prepDoc1 ("/w") [fixTask 1, fixTask 2]
    ({ taskSpec := ⟨[fixRunnable ("img")], 3, [⟨"RETRY_TASK", [50001]⟩], [], []⟩
     , taskCount := 2, taskCountPerNode := 1, parallelism := 1 })
    [] (by decide) (by decide) (by decide) (by decide)
  have h1 := c8_prepare_multitask_contract.1 prepDoc1 ("/w") (some [fixTask 1])
    (some [[fixTask 1]]) (by decide) (by decide)
  exact ⟨h5.1, h5.2.1, h5.2.2, h1⟩

theorem strData_append (a b : String) : (a ++ b).data = a.data ++ b.data := rfl

theorem strMk_data (s : String) : String.mk s.data = s := rfl

theorem str_ne_empty (s : String) (h : s ≠ "") : s.data ≠ [] := by
  intro hd
  exact h (String.ext hd)

theorem splitSep_cons (sep c : Char) (cs : List Char) :
    splitSep sep (c :: cs) =
      if c = sep then [] :: splitSep sep cs
      else
        match splitSep sep cs with
        | [] => [[c]]
        | h :: t => (c :: h) :: t := rfl

theorem splitSep_not_mem (sep : Char) (l : List Char) (h : sep ∉ l) : splitSep sep l = [l] := by
  induction l with
  | nil => rfl
  | cons c cs ih =>
    have hc : ¬ (c = sep) := fun hcontra => h (hcontra ▸ List.mem_cons_self c cs)
    have hcs : sep ∉ cs := fun hm => h (List.mem_cons_of_mem c hm)
    rw [splitSep_cons, if_neg hc, ih hcs]

theorem splitSep_append (sep : Char) (a b : List Char) (h : sep ∉ a) :
    splitSep sep (a ++ sep :: b) = a :: splitSep sep b := by
  induction a with
  | nil =>
    rw [List.nil_append, splitSep_cons, if_pos rfl]
  | cons c cs ih =>
    have hc : ¬ (c = sep) := fun hcontra => h (hcontra ▸ List.mem_cons_self c cs)
    have hcs : sep ∉ cs := fun hm => h (List.mem_cons_of_mem c hm)
    rw [List.cons_append, splitSep_cons, if_neg hc, ih hcs]

theorem pyInt_digits (l : List Char) (h1 : l ≠ []) (h2 : l.all (fun c => c.isDigit) = true) :
    pyInt l = some (Int.ofNat (digitsVal l)) := by
  have hd : digitsNat l = some (digitsVal l) := by
    unfold digitsNat
    rw [if_pos ⟨h1, h2⟩]
  cases l with
  | nil => exact absurd rfl h1
  | cons c cs =>
    have hc : c.isDigit = true := by
      simp only [List.all_cons, Bool.and_eq_true] at h2
      exact h2.1
    unfold pyInt
    split
    · rename_i rest heq
      injection heq with hch _
      rw [hch] at hc
      exact absurd hc (by decide)
    · rename_i rest heq
      injection heq with hch _
      rw [hch] at hc
      exact absurd hc (by decide)
    · rw [hd]
      rfl

theorem digits_not_mem (c : Char) (l : List Char) (hc : c.isDigit = false)
    (h2 : l.all (fun ch => ch.isDigit) = true) : c ∉ l := by
  intro hm
  have hx := List.all_eq_true.mp h2 c hm
  simp only at hx
  rw [hc] at hx
  cases hx

theorem parse_top_single (s : String) (hp : '+' ∉ s.data) :
    parseComputeConfig s = pccParts s.data [] := by
  unfold parseComputeConfig
  rw [splitSep_not_mem '+' s.data hp]
  rfl

theorem parse_top_pair (s : String) (a b : List Char) (hdata : s.data = a ++ '+' :: b)
    (hpa : '+' ∉ a) (hpb : '+' ∉ b) :
    parseComputeConfig s = pccParts a b := by
  unfold parseComputeConfig
  rw [hdata, splitSep_append '+' a b hpa, splitSep_not_mem '+' b hpb]
  rfl

theorem pccParts_single (m a : List Char) (hm : m ≠ []) (hcm : ':' ∉ m) :
    pccParts m a = pccAccel (String.mk m) ("SPOT") a := by
  unfold pccParts
  rw [if_neg hm, splitSep_not_mem ':' m hcm]

theorem pccParts_pair (m1 m2 a : List Char) (hcm : ':' ∉ m1) (hcm2 : ':' ∉ m2) :
    pccParts (m1 ++ ':' :: m2) a = pccAccel (String.mk m1) (String.mk m2) a := by
  unfold pccParts
  have hne : m1 ++ ':' :: m2 ≠ [] := by simp
  rw [if_neg hne, splitSep_append ':' m1 m2 hcm, splitSep_not_mem ':' m2 hcm2]

theorem pccAccel_single (mt pm : String) (t : List Char) (hct : ':' ∉ t) :
    pccAccel mt pm t =
      (if String.mk t = "" then mkComputeConfig mt pm (String.mk t) 0
       else mkComputeConfig mt pm (String.mk t) 1) := by
  unfold pccAccel
  rw [splitSep_not_mem ':' t hct]

theorem pccAccel_pair (mt pm : String) (t c1 : List Char) (hct : ':' ∉ t) (hcc : ':' ∉ c1) :
    pccAccel mt pm (t ++ ':' :: c1) =
      (match (if c1 = [] then some 0 else pyInt c1) with
       | none => .error (.valueError ("invalid literal for int"))
       | some n =>
         if 0 < n ∧ String.mk t = "" then
           .error (.valueError ("Accelerator count specified without accelerator type"))
         else mkComputeConfig mt pm (String.mk t) n) := by
  unfold pccAccel
  rw [splitSep_append ':' t c1 hct, splitSep_not_mem ':' c1 hcc]

theorem splitSep_ne_nil (sep : Char) (l : List Char) : splitSep sep l ≠ [] := by
  cases l with
  | nil => simp [splitSep]
  | cons c cs =>
    rw [splitSep_cons]
    split
    · simp
    · split <;> simp

theorem pccSpec_plain (mt : String) (hne : mt ≠ "") (hp : '+' ∉ mt.data) (hc : ':' ∉ mt.data) :
    parseComputeConfig mt = .ok ⟨mt, "SPOT", 0, ""⟩ := by
  rw [parse_top_single mt hp, pccParts_single mt.data [] (str_ne_empty mt hne) hc,
    strMk_data, pccAccel_single mt ("SPOT") [] (by simp)]
  rfl

theorem pccSpec_provisioning (mt pm : String) (_hne : mt ≠ "")
    (hp1 : '+' ∉ mt.data) (hc1 : ':' ∉ mt.data) (hp2 : '+' ∉ pm.data) (hc2 : ':' ∉ pm.data) :
    parseComputeConfig (mt ++ ":" ++ pm) =
      .ok ⟨mt, if pm = "" then "SPOT" else pm, 0, ""⟩ := by
  have hdata : (mt ++ ":" ++ pm).data = mt.data ++ ':' :: pm.data := by
    simp [strData_append, show (":" : String).data = [':'] from rfl]
  have hplus : '+' ∉ mt.data ++ ':' :: pm.data := by
    intro hm
    rcases List.mem_append.mp hm with h | h
    · exact hp1 h
    · rcases List.mem_cons.mp h with h | h
      · exact absurd h (by decide)
      · exact hp2 h
  rw [parse_top_single _ (by rw [hdata]; exact hplus), hdata,
    pccParts_pair mt.data pm.data [] hc1 hc2, strMk_data, strMk_data,
    pccAccel_single mt pm [] (by simp)]
  rfl

theorem pccSpec_accel_default (mt accT : String) (hne : mt ≠ "") (hane : accT ≠ "")
    (hp1 : '+' ∉ mt.data) (hc1 : ':' ∉ mt.data) (hp2 : '+' ∉ accT.data) (hc2 : ':' ∉ accT.data) :
    parseComputeConfig (mt ++ "+" ++ accT) = .ok ⟨mt, "SPOT", 1, accT⟩ := by
  have hdata : (mt ++ "+" ++ accT).data = mt.data ++ '+' :: accT.data := by
    simp [strData_append, show ("+" : String).data = ['+'] from rfl]
  rw [parse_top_pair _ mt.data accT.data hdata hp1 hp2,
    pccParts_single mt.data accT.data (str_ne_empty mt hne) hc1, strMk_data,
    pccAccel_single mt ("SPOT") accT.data hc2, strMk_data, if_neg hane]
  rfl

theorem pccSpec_full (mt pm accT : String) (ds : List Char) (_hne : mt ≠ "") (hane : accT ≠ "")
    (hp1 : '+' ∉ mt.data) (hc1 : ':' ∉ mt.data) (hp2 : '+' ∉ pm.data) (hc2 : ':' ∉ pm.data)
    (hp3 : '+' ∉ accT.data) (hc3 : ':' ∉ accT.data)
    (hds : ds ≠ []) (hdig : ds.all (fun c => c.isDigit) = true) :
    parseComputeConfig (mt ++ ":" ++ pm ++ "+" ++ accT ++ ":" ++ String.mk ds) =
      .ok ⟨mt, if pm = "" then "SPOT" else pm, Int.ofNat (digitsVal ds), accT⟩ := by
  have hpd : '+' ∉ ds := digits_not_mem '+' ds (by decide) hdig
  have hcd : ':' ∉ ds := digits_not_mem ':' ds (by decide) hdig
  have hdata : (mt ++ ":" ++ pm ++ "+" ++ accT ++ ":" ++ String.mk ds).data =
      (mt.data ++ ':' :: pm.data) ++ '+' :: (accT.data ++ ':' :: ds) := by
    simp [strData_append, show (":" : String).data = [':'] from rfl,
      show ("+" : String).data = ['+'] from rfl]
  have hpa : '+' ∉ mt.data ++ ':' :: pm.data := by
    intro hm
    rcases List.mem_append.mp hm with h | h
    · exact hp1 h
    · rcases List.mem_cons.mp h with h | h
      · exact absurd h (by decide)
      · exact hp2 h
  have hpb : '+' ∉ accT.data ++ ':' :: ds := by
    intro hm
    rcases List.mem_append.mp hm with h | h
    · exact hp3 h
    · rcases List.mem_cons.mp h with h | h
      · exact absurd h (by decide)
      · exact hpd h
  rw [parse_top_pair _ _ _ hdata hpa hpb,
    pccParts_pair mt.data pm.data _ hc1 hc2, strMk_data, strMk_data,
    pccAccel_pair mt pm accT.data ds hc3 hcd, if_neg hds, pyInt_digits ds hds hdig]
  rw [strMk_data]
  show (if 0 < Int.ofNat (digitsVal ds) ∧ accT = "" then
          (.error (.valueError ("Accelerator count specified without accelerator type")) :
            Except PyErr ComputeConfig)
        else mkComputeConfig mt pm accT (Int.ofNat (digitsVal ds))) = _
  rw [if_neg (fun hand => hane hand.2)]
  rfl

theorem pccParts_many_colon (m a : List Char) (hm : m ≠ [])
    (hcnt : 2 < (splitSep ':' m).length) : isValueError (pccParts m a) = true := by
  unfold pccParts
  rw [if_neg hm]
  rcases hms : splitSep ':' m with _ | ⟨t1, _ | ⟨t2, _ | ⟨t3, r⟩⟩⟩
  · exact absurd hms (splitSep_ne_nil ':' m)
  · rw [hms] at hcnt; simp at hcnt
  · rw [hms] at hcnt; simp at hcnt
  · rfl

theorem pccAccel_many_colon (mt pm : String) (a : List Char)
    (hcnt : 2 < (splitSep ':' a).length) : isValueError (pccAccel mt pm a) = true := by
  unfold pccAccel
  rcases hms : splitSep ':' a with _ | ⟨t1, _ | ⟨t2, _ | ⟨t3, r⟩⟩⟩
  · exact absurd hms (splitSep_ne_nil ':' a)
  · rw [hms] at hcnt; simp at hcnt
  · rw [hms] at hcnt; simp at hcnt
  · rfl

theorem pccSpec_empty_machine (s : String) (hlen : (splitSep '+' s.data).length ≤ 2)
    (hhead : (splitSep '+' s.data).headD [] = []) :
    isValueError (parseComputeConfig s) = true := by
  unfold parseComputeConfig
  rcases hsp : splitSep '+' s.data with _ | ⟨m, rest⟩
  · exact absurd hsp (splitSep_ne_nil '+' s.data)
  · rw [hsp] at hhead hlen
    simp only [List.headD_cons] at hhead
    subst hhead
    rcases rest with _ | ⟨a, rest2⟩
    · rfl
    · rcases rest2 with _ | ⟨c, r3⟩
      · rfl
      · simp at hlen

theorem pccSpec_many_plus (s : String) (hlen : 2 < (splitSep '+' s.data).length) :
    isValueError (parseComputeConfig s) = true := by
  unfold parseComputeConfig
  rcases hsp : splitSep '+' s.data with _ | ⟨m, _ | ⟨a, _ | ⟨c, r⟩⟩⟩
  · exact absurd hsp (splitSep_ne_nil '+' s.data)
  · rw [hsp] at hlen; simp at hlen
  · rw [hsp] at hlen; simp at hlen
  · rfl

theorem pccSpec_many_colon_machine (s : String) (hlen : (splitSep '+' s.data).length ≤ 2)
    (hhead : (splitSep '+' s.data).headD [] ≠ [])
    (hm : 2 < (splitSep ':' ((splitSep '+' s.data).headD [])).length) :
    isValueError (parseComputeConfig s) = true := by
  unfold parseComputeConfig
  rcases hsp : splitSep '+' s.data with _ | ⟨m, rest⟩
  · exact absurd hsp (splitSep_ne_nil '+' s.data)
  · rw [hsp] at hhead hm hlen
    simp only [List.headD_cons] at hhead hm
    rcases rest with _ | ⟨a, rest2⟩
    · exact pccParts_many_colon m [] hhead hm
    · rcases rest2 with _ | ⟨c, r3⟩
      · exact pccParts_many_colon m a hhead hm
      · simp at hlen

theorem pccSpec_many_colon_accel (s : String) (m r : List Char)
    (hsp : splitSep '+' s.data = [m, r]) (hm : m ≠ [])
    (hmc : (splitSep ':' m).length ≤ 2) (hr : 2 < (splitSep ':' r).length) :
    isValueError (parseComputeConfig s) = true := by
  unfold parseComputeConfig
  rw [hsp]
  show isValueError (pccParts m r) = true
  unfold pccParts
  rw [if_neg hm]
  rcases hms : splitSep ':' m with _ | ⟨t1, _ | ⟨t2, _ | ⟨t3, r3⟩⟩⟩
  · exact absurd hms (splitSep_ne_nil ':' m)
  · exact pccAccel_many_colon _ _ r hr
  · exact pccAccel_many_colon _ _ r hr
  · rw [hms] at hmc; simp at hmc

theorem pccSpec_count_without_type (mt : String) (ds : List Char) (hne : mt ≠ "")
    (hp1 : '+' ∉ mt.data) (hc1 : ':' ∉ mt.data) (hds : ds ≠ [])
    (hdig : ds.all (fun c => c.isDigit) = true) (hpos : 0 < digitsVal ds) :
    isValueError (parseComputeConfig (mt ++ "+:" ++ String.mk ds)) = true := by
  have hpd : '+' ∉ ds := digits_not_mem '+' ds (by decide) hdig
  have hcd : ':' ∉ ds := digits_not_mem ':' ds (by decide) hdig
  have hdata : (mt ++ "+:" ++ String.mk ds).data = mt.data ++ '+' :: (':' :: ds) := by
    simp [strData_append, show ("+:" : String).data = ['+', ':'] from rfl]
  have hpb : '+' ∉ ':' :: ds := by
    intro hm
    rcases List.mem_cons.mp hm with h | h
    · exact absurd h (by decide)
    · exact hpd h
  rw [parse_top_pair _ mt.data (':' :: ds) hdata hp1 hpb,
    pccParts_single mt.data (':' :: ds) (str_ne_empty mt hne) hc1, strMk_data]
  show isValueError (pccAccel mt ("SPOT") ([] ++ ':' :: ds)) = true
  rw [pccAccel_pair mt ("SPOT") [] ds (by simp) hcd, if_neg hds, pyInt_digits ds hds hdig]
  show isValueError
      (if 0 < Int.ofNat (digitsVal ds) ∧ (String.mk [] : String) = "" then
        (.error (.valueError ("Accelerator count specified without accelerator type")) :
          Except PyErr ComputeConfig)
      else mkComputeConfig mt ("SPOT") (String.mk []) (Int.ofNat (digitsVal ds))) = true
  rw [if_pos ⟨Int.ofNat_pos.mpr hpos, rfl⟩]
  rfl

theorem pccAccel_count_type (mt pm : String) (a : List Char) (cfg : ComputeConfig)
    (h : pccAccel mt pm a = .ok cfg) (hpos : 0 < cfg.accelerator_count) :
    cfg.accelerator_type ≠ "" := by
  unfold pccAccel at h
  split at h
  · split at h
    · unfold mkComputeConfig at h
      simp only [Except.ok.injEq] at h
      subst h
      simp at hpos
    · rename_i hne1
      unfold mkComputeConfig at h
      simp only [Except.ok.injEq] at h
      subst h
      exact hne1
  · split at h
    · exact absurd h (by simp)
    · rename_i n hn
      split at h
      · exact absurd h (by simp)
      · rename_i hcond
        unfold mkComputeConfig at h
        simp only [Except.ok.injEq] at h
        subst h
        intro hempty
        exact hcond ⟨hpos, hempty⟩
  · exact absurd h (by simp)

theorem pccParts_count_type (m a : List Char) (cfg : ComputeConfig)
    (h : pccParts m a = .ok cfg) (hpos : 0 < cfg.accelerator_count) :
    cfg.accelerator_type ≠ "" := by
  unfold pccParts at h
  split at h
  · exact absurd h (by simp)
  · split at h
    · exact pccAccel_count_type _ _ _ cfg h hpos
    · exact pccAccel_count_type _ _ _ cfg h hpos
    · exact absurd h (by simp)

/-- C3 (amended): every successful `parse_compute_config` satisfies the
one-way invariant — a positive accelerator count implies a nonempty
accelerator type.  The claimed both-ways invariant fails: a nonempty type
with count zero can be returned. -/
theorem c3_accel_positive_implies_type (s : String) (cfg : ComputeConfig)
    (h : parseComputeConfig s = .ok cfg) (hpos : 0 < cfg.accelerator_count) :
    cfg.accelerator_type ≠ "" := by
  unfold parseComputeConfig pccTop at h
  split at h
  · exact absurd h (by simp)
  · exact pccParts_count_type _ _ cfg h hpos
  · exact pccParts_count_type _ _ cfg h hpos
  · exact absurd h (by simp)

/-- C3 counterexample: `"n1+gpu:0"` parses successfully into a configuration
with a nonempty accelerator type and accelerator count zero, so the
both-or-neither accelerator invariant does not hold for parse results. -/
theorem c3_accel_invariant_counterexample :
    parseComputeConfig ("n1+gpu:0") = .ok ⟨"n1", "SPOT", 0, "gpu"⟩ ∧
    ¬ ((("gpu" : String) ≠ "" ∧ (0 : Int) > 0) ∨ (("gpu" : String) = "" ∧ (0 : Int) = 0)) := by
  exact ⟨by decide, by decide⟩

/-- Concrete application of the amended C3 at the input `"m+g:2"`. -/
theorem c3_accel_positive_implies_type_witness :
    ((⟨"m", "SPOT", 2, "g"⟩ : ComputeConfig)).accelerator_type ≠ "" :=
  c3_accel_positive_implies_type ("m+g:2") ⟨"m", "SPOT", 2, "g"⟩ (by decide) (by decide)

/-- C5 (amended): `parse_compute_config` parses
`machineType[:provisioningModel][+acceleratorType[:acceleratorCount]]` with
provisioning model defaulting to SPOT and accelerator count defaulting to 1
with a bare type and 0 otherwise, and fails with a validation error on an
empty machine segment, more than two `+`-separated segments, more than two
`:`-separated segments in either part, or a positive accelerator count given
without an accelerator type (a zero or empty count without a type is
accepted). -/
theorem c5_parse_compute_config :
    (∀ mt : String, mt ≠ "" → '+' ∉ mt.data → ':' ∉ mt.data →
       parseComputeConfig mt = .ok ⟨mt, "SPOT", 0, ""⟩) ∧
    (∀ mt pm : String, mt ≠ "" → '+' ∉ mt.data → ':' ∉ mt.data → '+' ∉ pm.data →
       ':' ∉ pm.data →
       parseComputeConfig (mt ++ ":" ++ pm) =
         .ok ⟨mt, if pm = "" then "SPOT" else pm, 0, ""⟩) ∧
    (∀ mt accT : String, mt ≠ "" → accT ≠ "" → '+' ∉ mt.data → ':' ∉ mt.data →
       '+' ∉ accT.data → ':' ∉ accT.data →
       parseComputeConfig (mt ++ "+" ++ accT) = .ok ⟨mt, "SPOT", 1, accT⟩) ∧
    (∀ (mt pm accT : String) (ds : List Char), mt ≠ "" → accT ≠ "" →
       '+' ∉ mt.data → ':' ∉ mt.data → '+' ∉ pm.data → ':' ∉ pm.data →
       '+' ∉ accT.data → ':' ∉ accT.data → ds ≠ [] →
       ds.all (fun c => c.isDigit) = true →
       parseComputeConfig (mt ++ ":" ++ pm ++ "+" ++ accT ++ ":" ++ String.mk ds) =
         .ok ⟨mt, if pm = "" then "SPOT" else pm, Int.ofNat (digitsVal ds), accT⟩) ∧
    (∀ s : String, (splitSep '+' s.data).length ≤ 2 →
       (splitSep '+' s.data).headD [] = [] → isValueError (parseComputeConfig s) = true) ∧
    (∀ s : String, 2 < (splitSep '+' s.data).length →
       isValueError (parseComputeConfig s) = true) ∧
    (∀ s : String, (splitSep '+' s.data).length ≤ 2 →
       (splitSep '+' s.data).headD [] ≠ [] →
       2 < (splitSep ':' ((splitSep '+' s.data).headD [])).length →
       isValueError (parseComputeConfig s) = true) ∧
    (∀ (s : String) (m r : List Char), splitSep '+' s.data = [m, r] → m ≠ [] →
       (splitSep ':' m).length ≤ 2 → 2 < (splitSep ':' r).length →
       isValueError (parseComputeConfig s) = true) ∧
    (∀ (mt : String) (ds : List Char), mt ≠ "" → '+' ∉ mt.data → ':' ∉ mt.data →
       ds ≠ [] → ds.all (fun c => c.isDigit) = true → 0 < digitsVal ds →
       isValueError (parseComputeConfig (mt ++ "+:" ++ String.mk ds)) = true) := by
  exact ⟨pccSpec_plain, pccSpec_provisioning, pccSpec_accel_default, pccSpec_full,
    pccSpec_empty_machine, pccSpec_many_plus, pccSpec_many_colon_machine,
    pccSpec_many_colon_accel, pccSpec_count_without_type⟩

/-- C5 counterexample: `"n1+:0"` gives an accelerator count (`0`) without an
accelerator type, yet `parse_compute_config` succeeds instead of failing. -/
theorem c5_count_without_type_counterexample :
    parseComputeConfig ("n1+:0") = .ok ⟨"n1", "SPOT", 0, ""⟩ := by
  decide

/-- Concrete applications of the amended C5: the spec's worked examples. -/
theorem c5_parse_compute_config_witness :
    parseComputeConfig ("n1-standard-8" ++ ":" ++ "SPOT" ++ "+" ++ "nvidia-tesla-t4" ++ ":" ++
        String.mk ['1']) = .ok ⟨"n1-standard-8", "SPOT", 1, "nvidia-tesla-t4"⟩ ∧
    parseComputeConfig ("n1-standard-8") = .ok ⟨"n1-standard-8", "SPOT", 0, ""⟩ ∧
    isValueError (parseComputeConfig ("invalid+format+string")) = true ∧
    isValueError (parseComputeConfig ("")) = true := by
  refine ⟨?_, ?_, ?_, ?_⟩
  · exact (c5_parse_compute_config.2.2.2.1 ("n1-standard-8") ("SPOT") ("nvidia-tesla-t4") ['1']
      (by decide) (by decide) (by decide) (by decide) (by decide) (by decide) (by decide)
      (by decide) (by decide) (by decide)).trans (by decide)
  · exact c5_parse_compute_config.1 ("n1-standard-8") (by decide) (by decide) (by decide)
  · exact c5_parse_compute_config.2.2.2.2.2.1 ("invalid+format+string") (by decide)
  · exact c5_parse_compute_config.2.2.2.2.1 ("") (by decide) (by decide)

/-- C4: `get_task_arguments` resolves by three-tier priority — non-empty
explicit tokens with a schema are parsed against the schema (ignoring the
environment, as the right-hand side mentions neither the environment nor the
files); otherwise a truthy `GBATCHKIT_ARGS_PATH` selects the element at
`BATCH_TASK_INDEX` of the JSON array at that path; otherwise a schema parses
the process command-line tokens; and with no applicable tier it fails with a
configuration `ValueError`. -/
theorem c4_task_argument_tiers :
    (∀ (α : Type) (w : World) (sch : PySchema α) (l : List String), l ≠ [] →
       getTaskArguments w (some sch) (some l) =
         finishSchema (some sch) (parseCmdlineArgs sch.fields l)) ∧
    (∀ (α : Type) (w : World) (schema : Option (PySchema α)) (args : Option (List String))
       (p : String),
       ¬ (argsTruthy args = true ∧ schema.isSome = true) → envArgsPath w = some p →
       getTaskArguments w schema args = finishSchema schema (getBatchIndexedTask w p)) ∧
    (∀ (w : World) (p : String) (arr : List TaskDict) (ds : List Char) (el : TaskDict),
       dictGet w.files p = some arr →
       dictGet w.env ("BATCH_TASK_INDEX") = some (String.mk ds) →
       ds ≠ [] → ds.all (fun c => c.isDigit) = true → arr[digitsVal ds]? = some el →
       getBatchIndexedTask w p = .ok el) ∧
    (∀ (α : Type) (w : World) (sch : PySchema α), envArgsPath w = none →
       getTaskArguments w (some sch) none =
         finishSchema (some sch) (parseCmdlineArgs sch.fields w.argv)) ∧
    (∀ (α : Type) (w : World) (args : Option (List String)), envArgsPath w = none →
       getTaskArguments (α := α) w none args =
         .error (.valueError ("Need GBATCHKIT_ARGS_PATH env, or task_args_cls to read from args"))) := by
  refine ⟨?_, ?_, ?_, ?_, ?_⟩
  · intro α w sch l hl
    cases l with
    | nil => exact absurd rfl hl
    | cons x xs => rfl
  · intro α w schema args p h hp
    cases schema with
    | none =>
      unfold getTaskArguments
      rw [hp]
    | some sch =>
      have hat : argsTruthy args = false := by
        cases hx : argsTruthy args
        · rfl
        · exact absurd ⟨hx, rfl⟩ h
      unfold getTaskArguments
      simp only [hat, Bool.false_eq_true, if_false]
      rw [hp]
  · intro w p arr ds el hfiles henv hne hdig hel
    unfold getBatchIndexedTask
    rw [hfiles, henv]
    simp [pyInt_digits ds hne hdig, pyIndex, Int.natCast_nonneg, hel]
  · intro α w sch hp
    unfold getTaskArguments
    rw [hp]
    rfl
  · intro α w args hp
    unfold getTaskArguments
    rw [hp]

/-- Concrete application of C4: tier 1 on explicit tokens, tier 2 from the
environment-indexed file, and the configuration failure with no sources. -/
theorem c4_task_argument_tiers_witness :
    getTaskArguments fixWorld (some taskArgsSchema) (some ["--arg1", "300", "--arg2", "value3"]) =
      .ok (.inl ⟨300, "value3"⟩) ∧
    getTaskArguments fixWorld (some taskArgsSchema) none = .ok (.inl ⟨200, "value2"⟩) ∧
    getTaskArguments (α := TaskArgsEx) ⟨[], [], []⟩ none none =
      .error (.valueError ("Need GBATCHKIT_ARGS_PATH env, or task_args_cls to read from args")) := by
  refine ⟨?_, ?_, ?_⟩
  · exact (c4_task_argument_tiers.1 TaskArgsEx fixWorld taskArgsSchema
      ["--arg1", "300", "--arg2", "value3"] (by decide)).trans (by decide)
  · exact (c4_task_argument_tiers.2.1 TaskArgsEx fixWorld (some taskArgsSchema) none ("/f")
      (by decide) (by decide)).trans (by decide)
  · exact c4_task_argument_tiers.2.2.2.2 TaskArgsEx ⟨[], [], []⟩ none (by decide)

/-- C10: an explicit but empty token list with a schema does not trigger
tier 1 — with `GBATCHKIT_ARGS_PATH` set the environment-indexed file is used,
and without it the empty list itself (not the process arguments) is parsed
against the schema. -/
theorem c10_empty_args_not_tier1 :
    (∀ (α : Type) (w : World) (sch : PySchema α) (p : String), envArgsPath w = some p →
       getTaskArguments w (some sch) (some []) =
         finishSchema (some sch) (getBatchIndexedTask w p)) ∧
    (∀ (α : Type) (w : World) (sch : PySchema α), envArgsPath w = none →
       getTaskArguments w (some sch) (some []) =
         finishSchema (some sch) (parseCmdlineArgs sch.fields [])) := by
  refine ⟨?_, ?_⟩
  · intro α w sch p hp
    unfold getTaskArguments
    rw [hp]
    rfl
  · intro α w sch hp
    unfold getTaskArguments
    rw [hp]
    rfl

/-- Concrete application of C10: with the environment set, `args=[]` resolves
from the file at index 1; without it, the empty list is parsed against the
schema (so the process arguments are ignored and required flags are
missing). -/
theorem c10_empty_args_not_tier1_witness :
    getTaskArguments fixWorld (some taskArgsSchema) (some []) = .ok (.inl ⟨200, "value2"⟩) ∧
    getTaskArguments ⟨[], ["--arg1", "7", "--arg2", "x"], []⟩ (some taskArgsSchema) (some []) =
      .error (.argError ("the following arguments are required")) := by
  refine ⟨?_, ?_⟩
  · exact (c10_empty_args_not_tier1.1 TaskArgsEx fixWorld taskArgsSchema ("/f")
      (by decide)).trans (by decide)
  · exact (c10_empty_args_not_tier1.2 TaskArgsEx ⟨[], ["--arg1", "7", "--arg2", "x"], []⟩
      taskArgsSchema (by decide)).trans (by decide)
